import Mathlib

/-!
# ChatBGD worker — verification of the edge-function behaviour

Shallow embedding of `src/index.ts` of the ChatBGD repository: a Cloudflare
worker that serves embedded static assets and proxies `POST /api/chat` to an
upstream AI service.

JavaScript values flowing through the handler are modelled by the `Json`
inductive below.  A parsed request body is `Option Json` (`none` models
`request.json()` throwing).  The upstream service binding
(`env.AI_WORKER.fetch`) is modelled as a function from the upstream request
body to an `UpstreamOutcome`: either an exception during the call, or a
response with a status code and a JSON body (`none` models
`aiResponse.json()` throwing).  The embedded static asset map
(`staticAssets`, generated into `src/lib/static` by the build) is a
parameter: an association list from path to file content.
-/

namespace ChatBGD

/-- JSON values, as produced by `request.json()` / `response.json()`.
Numbers are modelled as integers: the handler only ever tests numbers for
truthiness, never does arithmetic on them. -/
inductive Json where
  | null
  | bool (b : Bool)
  | num (n : Int)
  | str (s : String)
  | arr (elems : List Json)
  | obj (fields : List (String × Json))
deriving Repr

/-- JavaScript truthiness of a JSON value (absent properties are modelled by
`Json.null`, which is falsy exactly like `undefined`). -/
def truthy : Json → Bool
  | .null => false
  | .bool b => b
  | .num n => n != 0
  | .str s => s != ""
  | .arr _ => true
  | .obj _ => true

/-- `typeof v === 'string'`. -/
def isStringJ : Json → Bool
  | .str _ => true
  | _ => false

/-- `Array.isArray(v)`. -/
def isArrayJ : Json → Bool
  | .arr _ => true
  | _ => false

/-- The element list of a JSON array (only consulted after `Array.isArray`). -/
def elemsOf : Json → List Json
  | .arr xs => xs
  | _ => []

/-- JavaScript property access `v.k` on a non-throwing base: field lookup
on objects, `undefined` (modelled as `Json.null`) on other non-null values.
`null.k` throws a TypeError in JavaScript; the modelled traces detect a
null base before any access (`destructureMessage` for the request body,
`extractTexts` for the payload, `findJs` for scanned array elements), so
this function is total and its value on a null base is only consulted by
the spec-side descriptions and by `List.find?` scans past the point where
the code already stopped.  `JSON.parse` never yields an object with
duplicate keys, so first-match lookup is exact. -/
def getProp : Json → String → Json
  | .obj fields, k =>
    match fields.find? (fun p => p.1 == k) with
    | some p => p.2
    | none => .null
  | _, _ => .null

/-- Whether an object value carries the given key (used only to state the
spec claim about "present" fields). -/
def hasProp : Json → String → Bool
  | .obj fields, k => (fields.find? (fun p => p.1 == k)).isSome
  | _, _ => false

/-- Strict equality `v === "lit"` of an arbitrary value against a string
literal. -/
def jsEqStr (v : Json) (lit : String) : Bool :=
  match v with
  | .str s => s == lit
  | _ => false

/-- Whether a value is JavaScript `null`: dereferencing it throws. -/
def isNullJ : Json → Bool
  | .null => true
  | _ => false

/-- `Array.prototype.find` with a callback that dereferences its element
(all callbacks in the extraction access `item.type` first): scanning a
`null` element before any match throws a TypeError. -/
def findJs : List Json → (Json → Bool) → Except Unit (Option Json)
  | [], _ => .ok none
  | x :: xs, p =>
    if isNullJ x then .error ()
    else if p x then .ok (some x)
    else findJs xs p

/-- Whether such a scan throws: a `null` element occurs strictly before
the first match.  Used by the spec-side description of the extraction. -/
def scanThrows : List Json → (Json → Bool) → Bool
  | [], _ => false
  | x :: xs, p =>
    if isNullJ x then true
    else if p x then false
    else scanThrows xs p

/-- `message.length` for the validated string (only evaluated on strings). -/
def strLength : Json → Nat
  | .str s => s.length
  | _ => 0

/-- `const { message } = body`: destructuring throws a `TypeError` when the
parsed body is `null`; otherwise it yields the `message` property, `none`
standing for `undefined`. -/
def destructureMessage : Json → Except Unit (Option Json)
  | .null => .error ()
  | .obj fields =>
    .ok (match fields.find? (fun p => p.1 == "message") with
         | some p => some p.2
         | none => none)
  | _ => .ok none

/-- Outcome of the `env.AI_WORKER.fetch` call: an exception, or a response
carrying a status code and the result of `aiResponse.json()` (`none` when
that parse throws; it is only consulted on ok statuses). -/
inductive UpstreamOutcome where
  | fetchError
  | response (status : Nat) (json : Option Json)

/-- `aiResponse.ok`: status in the 200—299 range. -/
def upstreamOk (status : Nat) : Bool :=
  200 ≤ status && status < 300

/-- The value of the `reasoning` field of the handler success body.
`rpretty j` stands for the string `JSON.stringify(j, null, 2)` produced for
a truthy non-string `reasoning` value. -/
inductive RVal where
  | rnull
  | rval (j : Json)
  | rpretty (j : Json)
deriving Repr

/-- The JSON body the chat handler returns: `{error: msg}` or
`{response, reasoning}`. -/
inductive RespBody where
  | errorB (msg : String)
  | successB (response : Json) (reasoning : RVal)
deriving Repr

/-- Result of `handleChatRequest`: HTTP status, JSON body, and whether the
upstream service binding was invoked. -/
structure ChatResult where
  status : Nat
  body : RespBody
  upstreamCalled : Bool
deriving Repr

def errResult (status : Nat) (msg : String) (called : Bool) : ChatResult :=
  ⟨status, .errorB msg, called⟩

/-- The upstream request body built by the handler: `{ input: message }`. -/
def aiRequestBody (message : Json) : Json :=
  .obj [("input", message)]

/-- `item.type === 'message' && item.role === 'assistant'`. -/
def isAssistantMessage (item : Json) : Bool :=
  jsEqStr (getProp item "type") "message" && jsEqStr (getProp item "role") "assistant"

/-- The `responseText` the extraction (`src/index.ts` lines 268—338)
computes on traces where no TypeError occurs.  The faithful, throwing
extraction is `extractTexts`; on non-throwing traces the `findJs` scans
agree with `List.find?` and the result is this total function. -/
def extractResponseText (aiData : Json) : Json :=
  let out := getProp aiData "output"
  if truthy out && isArrayJ out then
    match (elemsOf out).find? isAssistantMessage with
    | some am =>
      let content := getProp am "content"
      if truthy content && isArrayJ content then
        match (elemsOf content).find? (fun c => jsEqStr (getProp c "type") "output_text") with
        | some tc =>
          if truthy (getProp tc "text") then getProp tc "text"
          else Json.str "No response received"
        | none => Json.str "No response received"
      else Json.str "No response received"
    | none => Json.str "No response received"
  else
    if truthy (getProp aiData "response") then getProp aiData "response"
    else if truthy (getProp aiData "text") then getProp aiData "text"
    else if truthy (getProp aiData "message") then getProp aiData "message"
    else
      match aiData with
      | .str s => .str s
      | _ => Json.str "No response received"

/-- The `reasoningText` the extraction (`src/index.ts` lines 268—338)
computes on traces where no TypeError occurs (independent of the
`responseText` assignments); see `extractTexts` for the throwing trace. -/
def extractReasoning (aiData : Json) : RVal :=
  let out := getProp aiData "output"
  if truthy out && isArrayJ out then
    let rz1 : RVal :=
      match (elemsOf out).find? isAssistantMessage with
      | some am =>
        let content := getProp am "content"
        if truthy content && isArrayJ content then
          match (elemsOf content).find? (fun c => jsEqStr (getProp c "type") "reasoning_text") with
          | some rc =>
            if truthy (getProp rc "text") then RVal.rval (getProp rc "text") else RVal.rnull
          | none => RVal.rnull
        else RVal.rnull
      | none => RVal.rnull
    match (elemsOf out).find? (fun item => jsEqStr (getProp item "type") "reasoning") with
    | some ro =>
      let content := getProp ro "content"
      if truthy content && isArrayJ content then
        match (elemsOf content).find? (fun c => jsEqStr (getProp c "type") "reasoning_text") with
        | some rc =>
          if truthy (getProp rc "text") then RVal.rval (getProp rc "text") else rz1
        | none => rz1
      else rz1
    | none => rz1
  else
    let r := getProp aiData "reasoning"
    if truthy r then
      match r with
      | .str s => RVal.rval (.str s)
      | j => RVal.rpretty j
    else RVal.rnull

/-- Lines 281—301 of the extraction: given the assistant-message search
result, scan its content array for the `output_text` and `reasoning_text`
items; either scan may throw on a null element. -/
def assistantPass (am? : Option Json) : Except Unit (Json × RVal) :=
  match am? with
  | some am =>
    let content := getProp am "content"
    if truthy content && isArrayJ content then
      match findJs (elemsOf content) (fun c => jsEqStr (getProp c "type") "output_text") with
      | .error e => .error e
      | .ok tc? =>
        let rt : Json :=
          match tc? with
          | some tc =>
            if truthy (getProp tc "text") then getProp tc "text"
            else Json.str "No response received"
          | none => Json.str "No response received"
        match findJs (elemsOf content) (fun c => jsEqStr (getProp c "type") "reasoning_text") with
        | .error e => .error e
        | .ok rc? =>
          .ok (rt,
            match rc? with
            | some rc =>
              if truthy (getProp rc "text") then RVal.rval (getProp rc "text")
              else RVal.rnull
            | none => RVal.rnull)
    else .ok (Json.str "No response received", RVal.rnull)
  | none => .ok (Json.str "No response received", RVal.rnull)

/-- Lines 303—315 of the extraction: scan the output array for a separate
reasoning object and, when it carries a content array, scan that for a
`reasoning_text` item, possibly overwriting the reasoning value; either
scan may throw on a null element. -/
def reasoningPass (items : List Json) (rt : Json) (rz1 : RVal) : Except Unit (Json × RVal) :=
  match findJs items (fun item => jsEqStr (getProp item "type") "reasoning") with
  | .error e => .error e
  | .ok ro? =>
    match ro? with
    | some ro =>
      let content := getProp ro "content"
      if truthy content && isArrayJ content then
        match findJs (elemsOf content) (fun c => jsEqStr (getProp c "type") "reasoning_text") with
        | .error e => .error e
        | .ok rc? =>
          .ok (rt,
            match rc? with
            | some rc =>
              if truthy (getProp rc "text") then RVal.rval (getProp rc "text")
              else rz1
            | none => rz1)
      else .ok (rt, rz1)
    | none => .ok (rt, rz1)

/-- The extraction pass over the upstream payload (`src/index.ts` lines
264—338), including its TypeError traces: `aiData.output` throws when
`aiData` is `null`, and each `find` scan (`findJs`) throws when it
dereferences a `null` array element before finding a match.  A thrown
error lands in the handler's catch (500).  In the non-array fallback
branch `aiData` is known non-null, so every access there is safe. -/
def extractTexts (aiData : Json) : Except Unit (Json × RVal) :=
  if isNullJ aiData then .error ()
  else
    let out := getProp aiData "output"
    if truthy out && isArrayJ out then
      match findJs (elemsOf out) isAssistantMessage with
      | .error e => .error e
      | .ok am? =>
        match assistantPass am? with
        | .error e => .error e
        | .ok (rt, rz1) => reasoningPass (elemsOf out) rt rz1
    else
      .ok
        (if truthy (getProp aiData "response") then getProp aiData "response"
         else if truthy (getProp aiData "text") then getProp aiData "text"
         else if truthy (getProp aiData "message") then getProp aiData "message"
         else
           match aiData with
           | .str s => .str s
           | _ => Json.str "No response received",
         if truthy (getProp aiData "reasoning") then
           match getProp aiData "reasoning" with
           | .str s => RVal.rval (.str s)
           | j => RVal.rpretty j
         else RVal.rnull)

/-- `handleChatRequest` (`src/index.ts` lines 143—373).  `body?` is the
result of `await request.json()` (`none` = it threw), `aiWorker` is the
service binding: the upstream outcome as a function of the upstream request
body. -/
def handleChatRequest (body? : Option Json) (aiWorker : Json → UpstreamOutcome) : ChatResult :=
  match body? with
  | none => errResult 500 "An unexpected error occurred" false
  | some body =>
    match destructureMessage body with
    | .error _ => errResult 500 "An unexpected error occurred" false
    | .ok m =>
      let message : Json := match m with | some v => v | none => .null
      if !(truthy message && isStringJ message) then
        errResult 400 "Invalid request: message is required" false
      else if strLength message > 4000 then
        errResult 400 "Message too long. Maximum 4000 characters." false
      else
        match aiWorker (aiRequestBody message) with
        | .fetchError => errResult 500 "An unexpected error occurred" true
        | .response st json? =>
          if !upstreamOk st then
            let msg :=
              if st == 429 then "Too many requests. Please wait a moment."
              else if st ≥ 500 then "AI service error. Please try again later."
              else "AI service temporarily unavailable"
            ⟨if st == 429 then 429 else 500, .errorB msg, true⟩
          else
            match json? with
            | none => errResult 500 "An unexpected error occurred" true
            | some aiData =>
              match extractTexts aiData with
              | .error _ => errResult 500 "An unexpected error occurred" true
              | .ok (rt, rz) => ⟨200, .successB rt rz, true⟩

/-- A static asset resolved by `getStaticAsset`: file content and inferred
content type. -/
structure Asset where
  content : String
  contentType : String
deriving Repr

/-- Path normalization at the top of `getStaticAsset`: `/` and the empty
path map to `/index.html`. -/
def normalizePath (path : String) : String :=
  if path == "/" || path == "" then "/index.html" else path

/-- `p.endsWith(s)`: suffix test on the character sequences. -/
def strEndsWith (p s : String) : Bool :=
  s.data.isSuffixOf p.data

/-- Lookup in the embedded `staticAssets` map (modelled as an association
list from path to content). -/
def lookupAsset (assets : List (String × String)) (p : String) : Option String :=
  (assets.find? (fun a => a.1 == p)).map (fun a => a.2)

/-- `getStaticAsset` (`src/index.ts` lines 378—405). -/
def getStaticAsset (assets : List (String × String)) (path : String) : Option Asset :=
  let p := normalizePath path
  match lookupAsset assets p with
  | none => none
  | some content =>
    let contentType :=
      if strEndsWith p ".html" then "text/html; charset=UTF-8"
      else if strEndsWith p ".css" then "text/css; charset=UTF-8"
      else if strEndsWith p ".js" then "application/javascript; charset=UTF-8"
      else if strEndsWith p ".json" then "application/json; charset=UTF-8"
      else "text/plain"
    some ⟨content, contentType⟩

/-- Body of a worker response. -/
inductive ResBody where
  | empty
  | text (s : String)
  | chat (b : RespBody)
deriving Repr

/-- A worker HTTP response: status, header list, body. -/
structure WorkerResponse where
  status : Nat
  headers : List (String × String)
  body : ResBody
deriving Repr

/-- Result of the worker `fetch` entry point.  The `/debug` and
`/healthcheck` GET endpoints build their responses from environment
introspection and wall-clock time; the claims under verification never
reach them, so they are kept abstract as dedicated constructors. -/
inductive FetchResult where
  | debugEndpoint
  | healthcheckEndpoint
  | ok (r : WorkerResponse)
deriving Repr

/-- The worker `fetch` entry point (`src/index.ts` lines 13—138), routed on
method and path. -/
def workerFetch (method path : String) (chatBody : Option Json)
    (aiWorker : Json → UpstreamOutcome) (assets : List (String × String)) : FetchResult :=
  if path == "/debug" && method == "GET" then .debugEndpoint
  else if path == "/healthcheck" && method == "GET" then .healthcheckEndpoint
  else if method == "OPTIONS" then
    .ok ⟨204,
      [("Access-Control-Allow-Origin", "*"),
       ("Access-Control-Allow-Methods", "GET, POST, OPTIONS"),
       ("Access-Control-Allow-Headers", "Content-Type"),
       ("Access-Control-Max-Age", "86400")],
      .empty⟩
  else if path == "/api/chat" && method == "POST" then
    let r := handleChatRequest chatBody aiWorker
    .ok ⟨r.status,
      [("Content-Type", "application/json"), ("Access-Control-Allow-Origin", "*")],
      .chat r.body⟩
  else
    match getStaticAsset assets path with
    | some a =>
      .ok ⟨200,
        [("Content-Type", a.contentType),
         ("Cache-Control", "public, max-age=86400"),
         ("Access-Control-Allow-Origin", "*")],
        .text a.content⟩
    | none =>
      match lookupAsset assets "/index.html" with
      | some html =>
        .ok ⟨200,
          [("Content-Type", "text/html; charset=UTF-8"),
           ("Cache-Control", "public, max-age=3600"),
           ("Access-Control-Allow-Origin", "*")],
          .text html⟩
      | none => .ok ⟨404, [], .text "Not Found"⟩

/-! ## Reply-text selection, stated two ways

`claimResponseChoice` renders the words of the spec claim about the success
path ("chosen by the first matching shape ..."); `amendedResponseChoice`
renders the amended description matching the code.  Both reuse
`assistantOutputText` for the nested `output`-array shape. -/

/-- The truthy `text` of the `output_text` content item of the assistant
message of the payload's `output` array, when that whole chain exists. -/
def assistantOutputText (d : Json) : Option Json :=
  match getProp d "output" with
  | .arr items =>
    match items.find? isAssistantMessage with
    | some am =>
      match getProp am "content" with
      | .arr cs =>
        match cs.find? (fun c => jsEqStr (getProp c "type") "output_text") with
        | some tc => if truthy (getProp tc "text") then some (getProp tc "text") else none
        | none => none
      | _ => none
    | none => none
  | _ => none

/-- The reply-text selection as the claim words it: the assistant output
text from the `output` array if present; otherwise the first *present* of
the `.response`, `.text`, `.message` fields, or the payload itself when it
is a string; and the placeholder when no shape matches. -/
def claimResponseChoice (d : Json) : Json :=
  match assistantOutputText d with
  | some t => t
  | none =>
    if hasProp d "response" then getProp d "response"
    else if hasProp d "text" then getProp d "text"
    else if hasProp d "message" then getProp d "message"
    else
      match d with
      | .str s => .str s
      | _ => Json.str "No response received"

/-- The reply-text selection as the code implements it (the amended claim):
when `output` is an array, the assistant output text or the placeholder —
the fallback fields are not consulted; otherwise the first *truthy* of
`.response`, `.text`, `.message`, then the payload itself when a string,
then the placeholder. -/
def amendedResponseChoice (d : Json) : Json :=
  if isArrayJ (getProp d "output") then
    (assistantOutputText d).getD (Json.str "No response received")
  else
    if truthy (getProp d "response") then getProp d "response"
    else if truthy (getProp d "text") then getProp d "text"
    else if truthy (getProp d "message") then getProp d "message"
    else
      match d with
      | .str s => .str s
      | _ => Json.str "No response received"

/-- The TypeError condition of the extraction, as the amended claim words
it: the payload is null, or — when its `output` field is a (truthy) array —
one of the four scans (for the assistant message, for a reasoning object,
or inside their respective content arrays for `output_text` /
`reasoning_text` items) passes a null element before finding a match
(`scanThrows`). -/
def amendedExtractionThrows (d : Json) : Bool :=
  if isNullJ d then true
  else
    let out := getProp d "output"
    if truthy out && isArrayJ out then
      (scanThrows (elemsOf out) isAssistantMessage
       || (match (elemsOf out).find? isAssistantMessage with
           | some am =>
             if truthy (getProp am "content") && isArrayJ (getProp am "content") then
               scanThrows (elemsOf (getProp am "content"))
                 (fun c => jsEqStr (getProp c "type") "output_text")
               || scanThrows (elemsOf (getProp am "content"))
                 (fun c => jsEqStr (getProp c "type") "reasoning_text")
             else false
           | none => false)
       || scanThrows (elemsOf out) (fun item => jsEqStr (getProp item "type") "reasoning")
       || (match (elemsOf out).find? (fun item => jsEqStr (getProp item "type") "reasoning") with
           | some ro =>
             if truthy (getProp ro "content") && isArrayJ (getProp ro "content") then
               scanThrows (elemsOf (getProp ro "content"))
                 (fun c => jsEqStr (getProp c "type") "reasoning_text")
             else false
           | none => false))
    else false

/-! ## Helper lemmas and sample values -/

/-- A concrete 4001-character message, for instantiating the oversized case. -/
def longMessage : String :=
  String.mk (List.replicate 4001 'a')

theorem longMessage_length : longMessage.length = 4001 := by
  show (List.replicate 4001 'a').length = 4001
  rw [List.length_replicate]

/-- A `findJs` scan throws exactly when `scanThrows` says so, and otherwise
finds what `List.find?` finds (a null element after the match point is
never reached, and `List.find?` skips nulls the callbacks reject). -/
theorem findJs_eq (xs : List Json) (p : Json → Bool) :
    findJs xs p = if scanThrows xs p then .error () else .ok (xs.find? p) := by
  induction xs with
  | nil => rfl
  | cons x rest ih =>
    by_cases hn : isNullJ x = true
    · simp [findJs, scanThrows, hn]
    · by_cases hp : p x = true
      · simp [findJs, scanThrows, List.find?_cons, hn, hp]
      · simp [findJs, scanThrows, List.find?_cons, hn, hp, ih]

/-- Characterization of `assistantPass`: it throws exactly when one of its
two content scans hits a null element first, and otherwise yields the
`output_text` and `reasoning_text` selections. -/
theorem assistantPass_eq (am? : Option Json) :
    assistantPass am? =
      if (match am? with
          | some am =>
            if truthy (getProp am "content") && isArrayJ (getProp am "content") then
              scanThrows (elemsOf (getProp am "content"))
                (fun c => jsEqStr (getProp c "type") "output_text")
              || scanThrows (elemsOf (getProp am "content"))
                (fun c => jsEqStr (getProp c "type") "reasoning_text")
            else false
          | none => false)
      then .error ()
      else
        .ok
          (match am? with
           | some am =>
             if truthy (getProp am "content") && isArrayJ (getProp am "content") then
               match (elemsOf (getProp am "content")).find?
                   (fun c => jsEqStr (getProp c "type") "output_text") with
               | some tc =>
                 if truthy (getProp tc "text") then getProp tc "text"
                 else Json.str "No response received"
               | none => Json.str "No response received"
             else Json.str "No response received"
           | none => Json.str "No response received",
           match am? with
           | some am =>
             if truthy (getProp am "content") && isArrayJ (getProp am "content") then
               match (elemsOf (getProp am "content")).find?
                   (fun c => jsEqStr (getProp c "type") "reasoning_text") with
               | some rc =>
                 if truthy (getProp rc "text") then RVal.rval (getProp rc "text")
                 else RVal.rnull
               | none => RVal.rnull
             else RVal.rnull
           | none => RVal.rnull) := by
  cases am? with
  | none => rfl
  | some am =>
    simp only [assistantPass]
    by_cases hcc : (truthy (getProp am "content") && isArrayJ (getProp am "content")) = true
    · rw [if_pos hcc, findJs_eq, findJs_eq]
      by_cases h2 : scanThrows (elemsOf (getProp am "content"))
          (fun c => jsEqStr (getProp c "type") "output_text") = true
      · simp [hcc, h2]
      · by_cases h3 : scanThrows (elemsOf (getProp am "content"))
            (fun c => jsEqStr (getProp c "type") "reasoning_text") = true
        · simp [hcc, h2, h3]
        · simp [hcc, h2, h3]
    · simp [hcc]

/-- Characterization of `reasoningPass`: it throws exactly when the
reasoning-object scan or the nested `reasoning_text` scan hits a null
element first, and otherwise carries the response text along with the
possibly-overwritten reasoning value. -/
theorem reasoningPass_eq (items : List Json) (rt : Json) (rz1 : RVal) :
    reasoningPass items rt rz1 =
      if (scanThrows items (fun item => jsEqStr (getProp item "type") "reasoning")
          || (match items.find? (fun item => jsEqStr (getProp item "type") "reasoning") with
              | some ro =>
                if truthy (getProp ro "content") && isArrayJ (getProp ro "content") then
                  scanThrows (elemsOf (getProp ro "content"))
                    (fun c => jsEqStr (getProp c "type") "reasoning_text")
                else false
              | none => false))
      then .error ()
      else
        .ok (rt,
          match items.find? (fun item => jsEqStr (getProp item "type") "reasoning") with
          | some ro =>
            if truthy (getProp ro "content") && isArrayJ (getProp ro "content") then
              match (elemsOf (getProp ro "content")).find?
                  (fun c => jsEqStr (getProp c "type") "reasoning_text") with
              | some rc =>
                if truthy (getProp rc "text") then RVal.rval (getProp rc "text")
                else rz1
              | none => rz1
            else rz1
          | none => rz1) := by
  unfold reasoningPass
  rw [findJs_eq]
  by_cases h4 : scanThrows items (fun item => jsEqStr (getProp item "type") "reasoning") = true
  · simp [h4]
  · simp only [h4, Bool.false_eq_true, if_false, Bool.false_or]
    cases hro : items.find? (fun item => jsEqStr (getProp item "type") "reasoning") with
    | none => simp
    | some ro =>
      dsimp only
      by_cases hcc : (truthy (getProp ro "content") && isArrayJ (getProp ro "content")) = true
      · rw [if_pos hcc, findJs_eq]
        by_cases h5 : scanThrows (elemsOf (getProp ro "content"))
            (fun c => jsEqStr (getProp c "type") "reasoning_text") = true
        · simp [hcc, h5]
        · simp [hcc, h5]
      · simp [hcc]

/-- The `output_text` leg of the extraction, on the assistant message
content: the code's if-chain equals the option-valued chain followed by the
placeholder default. -/
theorem inner_content_choice (content : Json) :
    (if truthy content && isArrayJ content then
       match (elemsOf content).find? (fun c => jsEqStr (getProp c "type") "output_text") with
       | some tc =>
         if truthy (getProp tc "text") then getProp tc "text"
         else Json.str "No response received"
       | none => Json.str "No response received"
     else Json.str "No response received")
    = (match content with
       | .arr cs =>
         match cs.find? (fun c => jsEqStr (getProp c "type") "output_text") with
         | some tc =>
           if truthy (getProp tc "text") then some (getProp tc "text") else none
         | none => none
       | _ => none).getD (Json.str "No response received") := by
  cases content with
  | arr cs =>
    dsimp only [elemsOf]
    rw [if_pos (show (truthy (Json.arr cs) && isArrayJ (Json.arr cs)) = true from rfl)]
    cases hf : cs.find? (fun c => jsEqStr (getProp c "type") "output_text") with
    | none => simp [hf]
    | some tc =>
      by_cases ht : truthy (getProp tc "text") = true <;> simp [hf, ht]
  | null => rfl
  | bool b => cases b <;> rfl
  | num n => simp [truthy, isArrayJ]
  | str s => simp [truthy, isArrayJ]
  | obj fields => rfl

/-- Characterization of the full extraction: it throws exactly on the
inputs `amendedExtractionThrows` describes, and otherwise computes the
total selections `extractResponseText` and `extractReasoning`. -/
theorem truthy_arr (xs : List Json) : truthy (.arr xs) = true := rfl

theorem isArrayJ_arr (xs : List Json) : isArrayJ (.arr xs) = true := rfl

theorem elemsOf_arr (xs : List Json) : elemsOf (.arr xs) = xs := rfl

theorem extractTexts_characterization (d : Json) :
    extractTexts d =
      if amendedExtractionThrows d then Except.error ()
      else Except.ok (extractResponseText d, extractReasoning d) := by
  by_cases hnull : isNullJ d = true
  · simp [extractTexts, amendedExtractionThrows, hnull]
  · unfold extractTexts amendedExtractionThrows extractResponseText extractReasoning
    rw [if_neg hnull, if_neg hnull]
    cases hout : getProp d "output" with
    | arr items =>
      simp only [elemsOf_arr]
      simp only [findJs_eq, assistantPass_eq, reasoningPass_eq]
      by_cases h1 : scanThrows items isAssistantMessage = true
      · simp [h1, truthy_arr, isArrayJ_arr]
      · simp only [h1, Bool.false_eq_true, if_false, Bool.false_or]
        cases ham : items.find? isAssistantMessage with
        | none => simp [ham, truthy_arr, isArrayJ_arr]
        | some am =>
          dsimp only
          by_cases hX : (if truthy (getProp am "content") && isArrayJ (getProp am "content") then
                scanThrows (elemsOf (getProp am "content"))
                  (fun c => jsEqStr (getProp c "type") "output_text")
                || scanThrows (elemsOf (getProp am "content"))
                  (fun c => jsEqStr (getProp c "type") "reasoning_text")
              else false) = true
          · rw [hX]
            simp [ham, truthy_arr, isArrayJ_arr]
          · rw [Bool.not_eq_true] at hX
            rw [hX]
            simp [ham, truthy_arr, isArrayJ_arr]
    | null => rfl
    | bool b => simp [truthy, isArrayJ]
    | num n => simp [truthy, isArrayJ]
    | str s => simp [truthy, isArrayJ]
    | obj fields => rfl

/-- The `responseText` computed by the handler coincides everywhere with
the amended first-matching-shape description. -/
theorem extractResponseText_eq_amendedChoice (d : Json) :
    extractResponseText d = amendedResponseChoice d := by
  unfold extractResponseText amendedResponseChoice assistantOutputText
  cases hout : getProp d "output" with
  | arr items =>
    dsimp only [elemsOf]
    cases ham : items.find? isAssistantMessage with
    | none => rfl
    | some am => exact inner_content_choice (getProp am "content")
  | null => rfl
  | bool b => cases b <;> rfl
  | num n => simp [truthy, isArrayJ]
  | str s => simp [truthy, isArrayJ]
  | obj fields => rfl

/-! ## Claims -/

/-- C1: a chat request whose parsed body carries a string `message` longer
than 4000 characters is answered with status 400 and the JSON body
`{error: 'Message too long. Maximum 4000 characters.'}`, and the upstream
service binding is never invoked. -/
theorem chat_oversized_message_rejected (body : Json) (s : String)
    (aiWorker : Json → UpstreamOutcome)
    (hm : destructureMessage body = .ok (some (.str s)))
    (hlen : s.length > 4000) :
    handleChatRequest (some body) aiWorker =
      ⟨400, .errorB "Message too long. Maximum 4000 characters.", false⟩ := by
  have hs : s ≠ "" := by
    intro h
    subst h
    simp at hlen
  simp only [handleChatRequest, hm]
  simp [truthy, isStringJ, strLength, hs, hlen, errResult]

theorem chat_oversized_message_rejected_spot :
    handleChatRequest (some (.obj [("message", .str longMessage)]))
        (fun _ => .fetchError) =
      ⟨400, .errorB "Message too long. Maximum 4000 characters.", false⟩ :=
  chat_oversized_message_rejected _ longMessage _ rfl
    (by rw [longMessage_length]; omega)

/-- C2: a chat request whose parsed body yields a `message` that is absent,
falsy, or not a string is answered with status 400 and the JSON body
`{error: 'Invalid request: message is required'}`, and the upstream service
binding is never invoked. -/
theorem chat_invalid_message_rejected (body : Json) (m : Option Json)
    (aiWorker : Json → UpstreamOutcome)
    (hm : destructureMessage body = .ok m)
    (hbad : m = none ∨ ∃ v, m = some v ∧ (truthy v = false ∨ isStringJ v = false)) :
    handleChatRequest (some body) aiWorker =
      ⟨400, .errorB "Invalid request: message is required", false⟩ := by
  simp only [handleChatRequest, hm]
  rcases hbad with h | ⟨v, hv, hbad⟩
  · subst h
    simp [truthy, errResult]
  · subst hv
    rcases hbad with h | h <;> simp [h, errResult]

theorem chat_invalid_message_rejected_spot :
    handleChatRequest (some (.obj [("message", .str "")]))
        (fun _ => .fetchError) =
      ⟨400, .errorB "Invalid request: message is required", false⟩ :=
  chat_invalid_message_rejected _ (some (.str "")) _ rfl
    (Or.inr ⟨.str "", rfl, Or.inl rfl⟩)

/-- C3: on a valid chat request, an upstream 429 response is mapped to
status 429 with the JSON body
`{error: 'Too many requests. Please wait a moment.'}`. -/
theorem chat_upstream_429_maps_to_429 (body : Json) (s : String)
    (json? : Option Json) (aiWorker : Json → UpstreamOutcome)
    (hm : destructureMessage body = .ok (some (.str s)))
    (hne : s ≠ "") (hlen : s.length ≤ 4000)
    (hw : aiWorker (aiRequestBody (.str s)) = .response 429 json?) :
    handleChatRequest (some body) aiWorker =
      ⟨429, .errorB "Too many requests. Please wait a moment.", true⟩ := by
  have hlen' : ¬ (s.length > 4000) := by omega
  simp only [handleChatRequest, hm]
  simp [truthy, isStringJ, strLength, hne, hlen', hw, upstreamOk]

theorem chat_upstream_429_maps_to_429_spot :
    handleChatRequest (some (.obj [("message", .str "hi")]))
        (fun _ => .response 429 none) =
      ⟨429, .errorB "Too many requests. Please wait a moment.", true⟩ :=
  chat_upstream_429_maps_to_429 _ "hi" none _ rfl (by decide) (by decide) rfl

/-- C4: on a valid chat request, an upstream response with status ≥ 500 is
mapped to status 500 with the JSON body
`{error: 'AI service error. Please try again later.'}`. -/
theorem chat_upstream_5xx_maps_to_500 (body : Json) (s : String) (st : Nat)
    (json? : Option Json) (aiWorker : Json → UpstreamOutcome)
    (hm : destructureMessage body = .ok (some (.str s)))
    (hne : s ≠ "") (hlen : s.length ≤ 4000) (hst : 500 ≤ st)
    (hw : aiWorker (aiRequestBody (.str s)) = .response st json?) :
    handleChatRequest (some body) aiWorker =
      ⟨500, .errorB "AI service error. Please try again later.", true⟩ := by
  have hlen' : ¬ (s.length > 4000) := by omega
  have hok : upstreamOk st = false := by
    simp only [upstreamOk, Bool.and_eq_false_iff]
    right
    simp only [decide_eq_false_iff_not, Nat.not_lt]
    omega
  have h429 : (st == 429) = false := by
    simp only [beq_eq_false_iff_ne, ne_eq]
    omega
  simp only [handleChatRequest, hm]
  simp [truthy, isStringJ, strLength, hne, hlen', hw, hok, h429, hst]

theorem chat_upstream_5xx_maps_to_500_spot :
    handleChatRequest (some (.obj [("message", .str "hi")]))
        (fun _ => .response 503 none) =
      ⟨500, .errorB "AI service error. Please try again later.", true⟩ :=
  chat_upstream_5xx_maps_to_500 _ "hi" 503 none _ rfl (by decide) (by decide)
    (by omega) rfl

/-- C5: every failure other than client validation and upstream 429 — a
request body that fails to parse as JSON, a body whose destructuring throws,
an exception during the upstream call, a non-ok upstream status other than
429, or an ok upstream response whose JSON fails to parse — is answered
with status 500 and a JSON body carrying an error message. -/
theorem chat_other_failures_map_to_500 (body? : Option Json)
    (aiWorker : Json → UpstreamOutcome)
    (hfail :
      body? = none
      ∨ (∃ b, body? = some b ∧ destructureMessage b = .error ())
      ∨ (∃ b s, body? = some b ∧ destructureMessage b = .ok (some (.str s)) ∧
          s ≠ "" ∧ s.length ≤ 4000 ∧
          (aiWorker (aiRequestBody (.str s)) = .fetchError
           ∨ (∃ st json?, aiWorker (aiRequestBody (.str s)) = .response st json? ∧
                upstreamOk st = false ∧ st ≠ 429)
           ∨ (∃ st, aiWorker (aiRequestBody (.str s)) = .response st none ∧
                upstreamOk st = true)))) :
    (handleChatRequest body? aiWorker).status = 500 ∧
      ∃ msg, (handleChatRequest body? aiWorker).body = RespBody.errorB msg := by
  rcases hfail with h | ⟨b, hb, hdes⟩ | ⟨b, s, hb, hdes, hne, hlen, hup⟩
  · subst h
    exact ⟨rfl, "An unexpected error occurred", rfl⟩
  · subst hb
    simp only [handleChatRequest, hdes]
    exact ⟨rfl, "An unexpected error occurred", rfl⟩
  · subst hb
    have hlen' : ¬ (s.length > 4000) := by omega
    simp only [handleChatRequest, hdes]
    rcases hup with hw | ⟨st, json?, hw, hok, h429⟩ | ⟨st, hw, hok⟩
    · simp [truthy, isStringJ, strLength, hne, hlen', hw, errResult]
    · have h429' : (st == 429) = false := beq_eq_false_iff_ne.mpr h429
      simp [truthy, isStringJ, strLength, hne, hlen', hw, hok, h429', errResult]
    · simp [truthy, isStringJ, strLength, hne, hlen', hw, hok, errResult]

theorem chat_other_failures_map_to_500_spot :
    (handleChatRequest none (fun _ => UpstreamOutcome.fetchError)).status = 500 ∧
      ∃ msg, (handleChatRequest none (fun _ => UpstreamOutcome.fetchError)).body =
        RespBody.errorB msg :=
  chat_other_failures_map_to_500 none _ (Or.inl rfl)

/-- C7: two chat requests carrying the same `message` (e.g. differing only
in `systemPrompt`) produce the same upstream request body, exactly
`{input: message}`, and — for upstream behaviour agreeing at that one
body — the same handler response: the accepted `systemPrompt` field has no
effect. -/
theorem chat_ignores_system_prompt (b1 b2 : Json) (s : String)
    (w w' : Json → UpstreamOutcome)
    (h1 : destructureMessage b1 = .ok (some (.str s)))
    (h2 : destructureMessage b2 = .ok (some (.str s)))
    (hw : w (aiRequestBody (.str s)) = w' (aiRequestBody (.str s))) :
    aiRequestBody (.str s) = Json.obj [("input", Json.str s)] ∧
    handleChatRequest (some b1) w = handleChatRequest (some b2) w' := by
  refine ⟨rfl, ?_⟩
  simp only [handleChatRequest, h1, h2, hw]

theorem chat_ignores_system_prompt_spot :
    aiRequestBody (.str "hi") = Json.obj [("input", Json.str "hi")] ∧
    handleChatRequest
        (some (.obj [("message", .str "hi"), ("systemPrompt", .str "be terse")]))
        (fun _ => UpstreamOutcome.fetchError) =
      handleChatRequest
        (some (.obj [("message", .str "hi"), ("systemPrompt", .str "be verbose")]))
        (fun _ => UpstreamOutcome.fetchError) :=
  chat_ignores_system_prompt _ _ "hi" _ _ rfl rfl rfl

/-- C8: the content type `getStaticAsset` attaches to a resolved asset is
determined by the extension of the normalized request path: `.html`, `.css`,
`.js`, `.json` map to their charset-qualified MIME types and anything else
to `text/plain`. -/
theorem static_content_type_by_extension (assets : List (String × String))
    (path : String) (a : Asset)
    (h : getStaticAsset assets path = some a) :
    a.contentType =
      (if strEndsWith (normalizePath path) ".html" then "text/html; charset=UTF-8"
       else if strEndsWith (normalizePath path) ".css" then "text/css; charset=UTF-8"
       else if strEndsWith (normalizePath path) ".js" then "application/javascript; charset=UTF-8"
       else if strEndsWith (normalizePath path) ".json" then "application/json; charset=UTF-8"
       else "text/plain") := by
  simp only [getStaticAsset] at h
  cases hl : lookupAsset assets (normalizePath path) with
  | none => rw [hl] at h; exact absurd h (by simp)
  | some content =>
    rw [hl] at h
    injection h with h
    rw [← h]

theorem static_content_type_by_extension_spot :
    (Asset.mk "body { }" "text/css; charset=UTF-8").contentType =
      (if strEndsWith (normalizePath "/styles.css") ".html" then "text/html; charset=UTF-8"
       else if strEndsWith (normalizePath "/styles.css") ".css" then "text/css; charset=UTF-8"
       else if strEndsWith (normalizePath "/styles.css") ".js" then "application/javascript; charset=UTF-8"
       else if strEndsWith (normalizePath "/styles.css") ".json" then "application/json; charset=UTF-8"
       else "text/plain") :=
  static_content_type_by_extension [("/styles.css", "body { }")] "/styles.css" _ (by rfl)

/-- C9: any OPTIONS request, on any path, is answered with status 204, an
empty body, and exactly the four fixed CORS headers. -/
theorem options_preflight_cors (path : String) (chatBody : Option Json)
    (aiWorker : Json → UpstreamOutcome) (assets : List (String × String)) :
    workerFetch "OPTIONS" path chatBody aiWorker assets =
      .ok ⟨204,
        [("Access-Control-Allow-Origin", "*"),
         ("Access-Control-Allow-Methods", "GET, POST, OPTIONS"),
         ("Access-Control-Allow-Headers", "Content-Type"),
         ("Access-Control-Max-Age", "86400")],
        .empty⟩ := by
  simp [workerFetch]

/-- C10: a non-OPTIONS request to a path that is none of the API or
diagnostic routes and misses the embedded static-asset map falls back to
the `/index.html` asset with status 200 and content type
`text/html; charset=UTF-8`; a 404 is returned only when `/index.html` is
absent from the map. -/
theorem fallback_serves_index_html (method path : String) (chatBody : Option Json)
    (aiWorker : Json → UpstreamOutcome) (assets : List (String × String))
    (hopt : method ≠ "OPTIONS") (hchat : path ≠ "/api/chat")
    (hdebug : path ≠ "/debug") (hhealth : path ≠ "/healthcheck")
    (hmiss : getStaticAsset assets path = none) :
    workerFetch method path chatBody aiWorker assets =
      match lookupAsset assets "/index.html" with
      | some html =>
        .ok ⟨200,
          [("Content-Type", "text/html; charset=UTF-8"),
           ("Cache-Control", "public, max-age=3600"),
           ("Access-Control-Allow-Origin", "*")],
          .text html⟩
      | none => .ok ⟨404, [], .text "Not Found"⟩ := by
  have h1 : (path == "/debug") = false := beq_eq_false_iff_ne.mpr hdebug
  have h2 : (path == "/healthcheck") = false := beq_eq_false_iff_ne.mpr hhealth
  have h3 : (method == "OPTIONS") = false := beq_eq_false_iff_ne.mpr hopt
  have h4 : (path == "/api/chat") = false := beq_eq_false_iff_ne.mpr hchat
  simp [workerFetch, h1, h2, h3, h4, hmiss]

theorem fallback_serves_index_html_spot :
    workerFetch "GET" "/some/spa/route" none (fun _ => UpstreamOutcome.fetchError)
        [("/index.html", "<html></html>")] =
      match lookupAsset [("/index.html", "<html></html>")] "/index.html" with
      | some html =>
        .ok ⟨200,
          [("Content-Type", "text/html; charset=UTF-8"),
           ("Cache-Control", "public, max-age=3600"),
           ("Access-Control-Allow-Origin", "*")],
          .text html⟩
      | none => .ok ⟨404, [], .text "Not Found"⟩ :=
  fallback_serves_index_html "GET" "/some/spa/route" none _ _
    (by decide) (by decide) (by decide) (by decide) rfl

/-- C6 as stated fails on the code: for the upstream payload
`{output: [], response: "hi"}` the output array carries no assistant
message, so per the claim the selection falls through to the present
`.response` field and yields "hi"; the handler instead returns the
placeholder, because the fallback fields are only consulted when `output`
is not an array. -/
theorem chat_success_response_claim_counterexample :
    handleChatRequest (some (.obj [("message", .str "hi")]))
        (fun _ => .response 200
          (some (.obj [("output", .arr []), ("response", .str "hi")]))) =
      ⟨200, .successB (.str "No response received") RVal.rnull, true⟩ ∧
    claimResponseChoice (.obj [("output", .arr []), ("response", .str "hi")]) =
      .str "hi" ∧
    Json.str "hi" ≠ Json.str "No response received" := by
  refine ⟨rfl, rfl, ?_⟩
  intro h
  injection h with h
  exact absurd h (by decide)

/-- C6 (amended): on a valid chat request whose upstream response is ok
with JSON payload `d`, the handler throws into its catch and returns 500
`{error: 'An unexpected error occurred'}` when the extraction dereferences
null (`amendedExtractionThrows d`: a null payload, or a scan of the output
or content arrays passing a null element before its match); otherwise it
returns status 200 with body `{response, reasoning}` where the response
field follows `amendedResponseChoice d`: when `output` is an array, the
truthy assistant output text or the placeholder — the
`.response`/`.text`/`.message` fallbacks are not consulted; otherwise the
first truthy of those fields, then the payload itself when a string, then
the placeholder. -/
theorem chat_success_response_choice (body : Json) (s : String) (st : Nat)
    (d : Json) (aiWorker : Json → UpstreamOutcome)
    (hm : destructureMessage body = .ok (some (.str s)))
    (hne : s ≠ "") (hlen : s.length ≤ 4000)
    (hok : upstreamOk st = true)
    (hw : aiWorker (aiRequestBody (.str s)) = .response st (some d)) :
    handleChatRequest (some body) aiWorker =
      if amendedExtractionThrows d then
        ⟨500, .errorB "An unexpected error occurred", true⟩
      else
        ⟨200, .successB (amendedResponseChoice d) (extractReasoning d), true⟩ := by
  have hlen' : ¬ (s.length > 4000) := by omega
  simp only [handleChatRequest, hm]
  by_cases hth : amendedExtractionThrows d = true
  · simp [truthy, isStringJ, strLength, hne, hlen', hw, hok, errResult,
      extractTexts_characterization, hth]
  · simp [truthy, isStringJ, strLength, hne, hlen', hw, hok,
      extractTexts_characterization, hth, extractResponseText_eq_amendedChoice]

theorem chat_success_response_choice_spot :
    handleChatRequest (some (.obj [("message", .str "hi")]))
        (fun _ => .response 200 (some (.str "pong"))) =
      if amendedExtractionThrows (.str "pong") then
        ⟨500, .errorB "An unexpected error occurred", true⟩
      else
        ⟨200,
          .successB (amendedResponseChoice (.str "pong"))
            (extractReasoning (.str "pong")), true⟩ :=
  chat_success_response_choice _ "hi" 200 _ _ rfl (by decide) (by decide) rfl rfl

end ChatBGD
